import Mathlib

/-!
Verification of the `nvidia_ocr` client library (`src/nvidia_ocr/client.py`)
against its natural-language specification.

The library is a thin HTTP client.  We embed it shallowly: the HTTP transport
(`requests.Session`) is a caller-supplied oracle `HttpRequest → HttpResponse`,
and each client method becomes a pure Lean function returning the Python
result (`Except PyError α`, since the methods raise), the list of HTTP
requests it issued, and the client state after the call (the Python methods
never assign to `self`, so the state-passing translation returns the
receiver unchanged; the theorems record this).

`response.json()` is modelled abstractly: an `HttpResponse` carries, next to
its raw `text`, the optional JSON-object parse of that text (`none` models a
parse failure, which raises in Python).  JSON values are the inductive `JVal`.
Python annotations on the `UploadedFile` dataclass (`id: str`, `bytes: int`,
...) are taken as binding in the typed embedding.
-/

/-- JSON values, as far as this client manipulates them. -/
inductive JVal where
  | str (s : String)
  | int (n : Int)
  | bool (b : Bool)
  | null
  | obj (fields : List (String × JVal))

/-- HTTP method of an outgoing request (`session.post` / `session.get`). -/
inductive HttpMethod where
  | get
  | post
deriving DecidableEq

/-- An outgoing HTTP request, with the keyword arguments the client passes to
`requests`: query `params`, multipart `files` (form field name, filename,
content), form `formData` (the `data=` kwarg) and a JSON body (`json=`). -/
structure HttpRequest where
  method : HttpMethod
  url : String
  params : List (String × String)
  files : List (String × String × String)
  formData : List (String × String)
  jsonBody : Option JVal

/-- An HTTP response: status code, raw body text, and the JSON-object parse
of the body (`none` when `response.json()` would raise). -/
structure HttpResponse where
  status_code : Nat
  text : String
  json : Option (List (String × JVal))

/-- The transport oracle standing in for `requests.Session`. -/
def Session := HttpRequest → HttpResponse

/-- Python exception values raised by the client: `ValueError` (invalid
argument), `TypeError` (dataclass keyword-construction failure), a generic
`Exception` with its message, and a JSON decoding failure. -/
inductive PyError where
  | valueError (msg : String)
  | typeError (msg : String)
  | exception (msg : String)
  | jsonDecodeError

/-- Python's `str.rstrip(c)` for a single strip character: removes every
trailing occurrence of `c`. -/
def pyRstrip (s : String) (c : Char) : String :=
  ⟨(s.data.reverse.dropWhile (fun a => a == c)).reverse⟩

/-- Python's `key in dict` membership test, on an association-list model of a
`dict` (keys assumed unique, as in a Python dict). -/
def pyHasKey (d : List (String × String)) (k : String) : Bool :=
  d.any (fun q => q.1 == k)

/-- Python's `dict[key]` lookup; only used by the code after a successful
membership check. -/
def pyGet (d : List (String × String)) (k : String) : String :=
  (d.lookup k).getD ""

/-- The `UploadedFile` dataclass of `client.py`. -/
structure UploadedFile where
  id : String
  purpose : String
  filename : String
  bytes : Int
  created_at : Int
  status : String
deriving DecidableEq

/-- The declared field names of the `UploadedFile` dataclass, in declaration
order. -/
def uploadedFileFields : List String :=
  ["id", "purpose", "filename", "bytes", "created_at", "status"]

/-- Keyword extraction of a string-annotated dataclass field: the field must
be present and hold a JSON string (annotations taken as binding). -/
def reqStr (kw : List (String × JVal)) (name : String) : Except PyError String :=
  match kw.lookup name with
  | some (.str s) => .ok s
  | some _ => .error (.typeError ("argument of unexpected type: " ++ name))
  | none => .error (.typeError ("missing required argument: " ++ name))

/-- Keyword extraction of an int-annotated dataclass field. -/
def reqInt (kw : List (String × JVal)) (name : String) : Except PyError Int :=
  match kw.lookup name with
  | some (.int n) => .ok n
  | some _ => .error (.typeError ("argument of unexpected type: " ++ name))
  | none => .error (.typeError ("missing required argument: " ++ name))

/-- `UploadedFile(**result)`: keyword construction of the dataclass from a
JSON object.  It requires exactly the declared field set — an unexpected
keyword or a missing field raises `TypeError` (the spec's
`ProtocolMismatch`). -/
def uploadedFileOfKwargs (kw : List (String × JVal)) : Except PyError UploadedFile :=
  if kw.any (fun q => !(uploadedFileFields.contains q.1)) then
    .error (.typeError "unexpected keyword argument")
  else
    match reqStr kw "id" with
    | .error e => .error e
    | .ok i =>
      match reqStr kw "purpose" with
      | .error e => .error e
      | .ok p =>
        match reqStr kw "filename" with
        | .error e => .error e
        | .ok fn =>
          match reqInt kw "bytes" with
          | .error e => .error e
          | .ok b =>
            match reqInt kw "created_at" with
            | .error e => .error e
            | .ok ca =>
              match reqStr kw "status" with
              | .error e => .error e
              | .ok st => .ok ⟨i, p, fn, b, ca, st⟩

/-- The `FilesClient` of `client.py`: holds the base URL and the API key. -/
structure FilesClient where
  base_url : String
  api_key : String

/-- The multipart upload request `FilesClient.upload` sends:
`POST {base_url}/v1/files` with form file `file = (file_name, content)` and
form data `purpose`. -/
def FilesClient.uploadReq (c : FilesClient) (file : List (String × String))
    (purpose : String) : HttpRequest :=
  { method := .post
    url := c.base_url ++ "/v1/files"
    params := []
    files := [("file", pyGet file "file_name", pyGet file "content")]
    formData := [("purpose", purpose)]
    jsonBody := none }

/-- `FilesClient.upload(file, purpose="ocr")`.  Validates the two required
keys before any network call, posts the multipart request, raises on a
non-200 status with the response text in the message, otherwise builds an
`UploadedFile` from the JSON body by keyword construction.  Returns the
Python outcome, the issued requests, and the client state after the call. -/
def FilesClient.upload (c : FilesClient) (session : Session)
    (file : List (String × String)) (purpose : String) :
    Except PyError UploadedFile × List HttpRequest × FilesClient :=
  if !(pyHasKey file "file_name") || !(pyHasKey file "content") then
    (.error (.valueError "File must contain 'file_name' and 'content' keys"), [], c)
  else
    let req := c.uploadReq file purpose
    let r := session req
    if r.status_code ≠ 200 then
      (.error (.exception ("Upload failed: " ++ r.text)), [req], c)
    else
      match r.json with
      | none => (.error .jsonDecodeError, [req], c)
      | some result => (uploadedFileOfKwargs result, [req], c)

/-- The `nvOCR` client of `client.py`: API key, trailing-slash-stripped base
URL, and the embedded `FilesClient`. -/
structure nvOCR where
  api_key : String
  url : String
  files : FilesClient

/-- `nvOCR.__init__(api_key, url="http://localhost:8000")`: stores the key,
stores `url.rstrip('/')`, and builds the embedded `FilesClient` on the same
normalized URL.  Purely local: it takes no transport and issues no request. -/
def nvOCR.init (api_key : String) (url : String) : nvOCR :=
  { api_key := api_key
    url := pyRstrip url '/'
    files := { base_url := pyRstrip url '/', api_key := api_key } }

/-- The request `process_uploaded_file` sends:
`POST {url}/v1/ocr/process_file/{file_id}` with query param `prompt_mode`;
`file_id` is spliced into the path by plain f-string concatenation. -/
def nvOCR.processFileReq (c : nvOCR) (file_id prompt_mode : String) : HttpRequest :=
  { method := .post
    url := c.url ++ "/v1/ocr/process_file/" ++ file_id
    params := [("prompt_mode", prompt_mode)]
    files := []
    formData := []
    jsonBody := none }

/-- `nvOCR.process_uploaded_file(file_id, prompt_mode="prompt_layout_all_en")`:
posts the request and returns the raw response text on 200, raises on any
other status with the response text in the message. -/
def nvOCR.process_uploaded_file (c : nvOCR) (session : Session)
    (file_id prompt_mode : String) :
    Except PyError String × List HttpRequest × nvOCR :=
  let req := c.processFileReq file_id prompt_mode
  let r := session req
  if r.status_code ≠ 200 then
    (.error (.exception ("Processing failed: " ++ r.text)), [req], c)
  else
    (.ok r.text, [req], c)

/-- The request `process_image` sends: `POST {url}/v1/ocr/process_image`
with JSON body `{"document": document, "prompt_mode": prompt_mode}`; the
`document` mapping is passed through verbatim. -/
def nvOCR.processImageReq (c : nvOCR) (document : JVal) (prompt_mode : String) :
    HttpRequest :=
  { method := .post
    url := c.url ++ "/v1/ocr/process_image"
    params := []
    files := []
    formData := []
    jsonBody := some (.obj [("document", document), ("prompt_mode", .str prompt_mode)]) }

/-- `nvOCR.process_image(document, prompt_mode="prompt_layout_all_en")`:
same success/failure semantics as `process_uploaded_file`. -/
def nvOCR.process_image (c : nvOCR) (session : Session)
    (document : JVal) (prompt_mode : String) :
    Except PyError String × List HttpRequest × nvOCR :=
  let req := c.processImageReq document prompt_mode
  let r := session req
  if r.status_code ≠ 200 then
    (.error (.exception ("Processing failed: " ++ r.text)), [req], c)
  else
    (.ok r.text, [req], c)

/-- The request `health_check` sends: `GET {url}/health`. -/
def nvOCR.healthReq (c : nvOCR) : HttpRequest :=
  { method := .get
    url := c.url ++ "/health"
    params := []
    files := []
    formData := []
    jsonBody := none }

/-- `nvOCR.health_check()`: returns the parsed JSON body on 200, raises on
any other status with the response text in the message. -/
def nvOCR.health_check (c : nvOCR) (session : Session) :
    Except PyError (List (String × JVal)) × List HttpRequest × nvOCR :=
  let req := c.healthReq
  let r := session req
  if r.status_code ≠ 200 then
    (.error (.exception ("Health check failed: " ++ r.text)), [req], c)
  else
    match r.json with
    | none => (.error .jsonDecodeError, [req], c)
    | some j => (.ok j, [req], c)

/-- Lowercasing of a string, character by character; used only to state the
spec's (refuted) lowercase-normalization claim about the stored base URL. -/
def lowercase (s : String) : String :=
  ⟨s.data.map Char.toLower⟩

/-- A stub transport that always answers 500 with body "internal error". -/
def errSession : Session :=
  fun _ => { status_code := 500, text := "internal error", json := none }

/-- A stub transport that always answers 200 with a markdown body. -/
def mdSession : Session :=
  fun _ => { status_code := 200, text := "# Title\nBody", json := none }

/-- The upload input of the spec's end-to-end scenario. -/
def sampleFile : List (String × String) :=
  [("file_name", "a.png"), ("content", "0123456789")]

/-- The upload response JSON object of the spec's end-to-end scenario. -/
def sampleKv : List (String × JVal) :=
  [("id", .str "f1"), ("purpose", .str "ocr"), ("filename", .str "a.png"),
   ("bytes", .int 10), ("created_at", .int 1700000000), ("status", .str "uploaded")]

/-- A stub transport answering 200 with `sampleKv` as the parsed JSON body. -/
def okSession : Session :=
  fun _ => { status_code := 200, text := "uploaded-file-json", json := some sampleKv }

/-- A dropWhile head that exists falsifies the predicate. -/
theorem head?_dropWhile_eq_some {α : Type} {p : α → Bool} {l : List α} {x : α}
    (h : (l.dropWhile p).head? = some x) : p x = false := by
  have hd := List.head?_dropWhile_not p l
  rw [h] at hd
  exact hd

/-- Splitting a list at its maximal run of trailing `p`-elements. -/
theorem rstrip_split {α : Type} (l : List α) (p : α → Bool) :
    l = (l.reverse.dropWhile p).reverse ++ (l.reverse.takeWhile p).reverse := by
  rw [← List.reverse_append, List.takeWhile_append_dropWhile, List.reverse_reverse]

/-- `str.rstrip(c)` removes a (possibly empty) run of trailing `c`s. -/
theorem pyRstrip_append (s : String) (c : Char) :
    ∃ n, s.data = (pyRstrip s c).data ++ List.replicate n c := by
  refine ⟨(s.data.reverse.takeWhile (fun a => a == c)).length, ?_⟩
  have hrepl : s.data.reverse.takeWhile (fun a => a == c) =
      List.replicate (s.data.reverse.takeWhile (fun a => a == c)).length c :=
    List.eq_replicate_of_mem (fun b hb => by
      have hbc := List.mem_takeWhile_imp hb
      exact eq_of_beq hbc)
  have h2 : (s.data.reverse.takeWhile (fun a => a == c)).reverse =
      List.replicate (s.data.reverse.takeWhile (fun a => a == c)).length c := by
    conv_lhs => rw [hrepl]
    exact List.reverse_replicate _ _
  show s.data = (s.data.reverse.dropWhile (fun a => a == c)).reverse ++
      List.replicate (s.data.reverse.takeWhile (fun a => a == c)).length c
  rw [← h2]
  exact rstrip_split s.data (fun a => a == c)

/-- After `str.rstrip(c)`, the result does not end in `c`. -/
theorem pyRstrip_getLast (s : String) (c : Char) :
    (pyRstrip s c).data.getLast? ≠ some c := by
  intro h
  have h1 : (s.data.reverse.dropWhile (fun a => a == c)).head? = some c := by
    rw [← List.getLast?_reverse]
    exact h
  have h2 := head?_dropWhile_eq_some h1
  simp at h2

/-- C5 (counterexample): the claim says construction removes exactly one
trailing slash, so "http://host:8000//" would keep one; in fact `rstrip('/')`
removes both. -/
theorem construction_single_slash_counterexample :
    (nvOCR.init "key" "http://host:8000//").url = "http://host:8000" ∧
    (nvOCR.init "key" "http://host:8000//").url ≠ "http://host:8000/" :=
  ⟨rfl, by decide⟩

/-- C5 (amended): construction normalizes `url` by removing ALL trailing '/'
characters (the result never ends in '/'), stores the api_key, and builds the
embedded FilesClient on exactly the same normalized base URL; construction is
a pure function of its arguments and takes no transport, so it performs no
network activity. -/
theorem construction_normalizes_url (api_key url : String) :
    (∃ n, url.data = (nvOCR.init api_key url).url.data ++ List.replicate n '/') ∧
    (nvOCR.init api_key url).url.data.getLast? ≠ some '/' ∧
    (nvOCR.init api_key url).api_key = api_key ∧
    (nvOCR.init api_key url).files.base_url = (nvOCR.init api_key url).url ∧
    (nvOCR.init api_key url).files.api_key = api_key :=
  ⟨pyRstrip_append url '/', pyRstrip_getLast url '/', rfl, rfl, rfl⟩

/-- C6: clients built on "http://host:8000/" and "http://host:8000" produce
identical outgoing request URLs for upload, process_uploaded_file,
process_image and health_check. -/
theorem slash_insensitive_request_urls (api_key purpose fid pm : String)
    (file : List (String × String)) (doc : JVal) :
    ((nvOCR.init api_key "http://host:8000/").files.uploadReq file purpose).url =
      ((nvOCR.init api_key "http://host:8000").files.uploadReq file purpose).url ∧
    ((nvOCR.init api_key "http://host:8000/").processFileReq fid pm).url =
      ((nvOCR.init api_key "http://host:8000").processFileReq fid pm).url ∧
    ((nvOCR.init api_key "http://host:8000/").processImageReq doc pm).url =
      ((nvOCR.init api_key "http://host:8000").processImageReq doc pm).url ∧
    ((nvOCR.init api_key "http://host:8000/").healthReq).url =
      ((nvOCR.init api_key "http://host:8000").healthReq).url :=
  ⟨rfl, rfl, rfl, rfl⟩

/-- C7 (counterexample): the claim says the stored endpoint root is also
lowercase-normalized; in fact a client built on "HTTP://HOST:8000" stores it
verbatim, which differs from its lowercased trailing-slash-stripped form. -/
theorem base_url_lowercased_counterexample :
    (nvOCR.init "key" "HTTP://HOST:8000").url = "HTTP://HOST:8000" ∧
    (nvOCR.init "key" "HTTP://HOST:8000").url ≠ lowercase (pyRstrip "HTTP://HOST:8000" '/') :=
  ⟨rfl, by decide⟩

/-- C7 (amended): the endpoint root shared by all four operations is only
trailing-slash-stripped, with character case preserved: the stored base URL
is literally a character-for-character prefix of the given `url`, and each
operation's request URL is that stored root followed by its path. -/
theorem base_url_case_preserved (api_key url fid pm purpose : String)
    (file : List (String × String)) (doc : JVal) :
    (nvOCR.init api_key url).url.data =
      url.data.take (nvOCR.init api_key url).url.data.length ∧
    ((nvOCR.init api_key url).files.uploadReq file purpose).url =
      (nvOCR.init api_key url).url ++ "/v1/files" ∧
    ((nvOCR.init api_key url).processFileReq fid pm).url =
      (nvOCR.init api_key url).url ++ "/v1/ocr/process_file/" ++ fid ∧
    ((nvOCR.init api_key url).processImageReq doc pm).url =
      (nvOCR.init api_key url).url ++ "/v1/ocr/process_image" ∧
    (nvOCR.init api_key url).healthReq.url = (nvOCR.init api_key url).url ++ "/health" := by
  refine ⟨?_, rfl, rfl, rfl, rfl⟩
  obtain ⟨n, hn⟩ := pyRstrip_append url '/'
  conv_rhs => rw [hn]
  exact (List.take_left _ _).symm

/-- C10: `process_uploaded_file` issues exactly one request whose URL is the
stored base URL, then the literal text "/v1/ocr/process_file/", then
`file_id` verbatim — plain string concatenation with no escaping or
validation, for every `file_id` including "" and ids containing '/', '?'
or '#'. -/
theorem process_file_url_concatenation (c : nvOCR) (session : Session) (fid pm : String) :
    (c.process_uploaded_file session fid pm).2.1.map HttpRequest.url =
      [c.url ++ "/v1/ocr/process_file/" ++ fid] := by
  simp only [nvOCR.process_uploaded_file]
  split <;> rfl

/-- C3: on a 200 response, `process_uploaded_file` and `process_image`
return the response body text exactly as the transport delivered it, for any
body content — no parsing, re-encoding or markdown validation. -/
theorem process_returns_body_text (c : nvOCR) (session : Session)
    (fid pm : String) (doc : JVal) :
    ((session (c.processFileReq fid pm)).status_code = 200 →
      (c.process_uploaded_file session fid pm).1 =
        .ok (session (c.processFileReq fid pm)).text) ∧
    ((session (c.processImageReq doc pm)).status_code = 200 →
      (c.process_image session doc pm).1 =
        .ok (session (c.processImageReq doc pm)).text) := by
  constructor
  · intro h
    simp [nvOCR.process_uploaded_file, h]
  · intro h
    simp [nvOCR.process_image, h]

/-- C3 witness: a concrete 200 markdown response is returned verbatim. -/
theorem process_returns_body_text_witness :
    (mdSession ((nvOCR.init "k" "http://h").processFileReq "f1" "prompt_layout_all_en")).status_code = 200 ∧
    ((nvOCR.init "k" "http://h").process_uploaded_file mdSession "f1" "prompt_layout_all_en").1 =
      .ok "# Title\nBody" :=
  ⟨rfl, (process_returns_body_text (nvOCR.init "k" "http://h") mdSession
      "f1" "prompt_layout_all_en" JVal.null).1 rfl⟩

/-- C2: upload on a file mapping missing 'file_name' or 'content' fails with
ValueError (the spec's InvalidArgument), issues zero requests, and leaves
the client unchanged. -/
theorem upload_missing_key_no_request (c : FilesClient) (session : Session)
    (file : List (String × String)) (purpose : String)
    (h : pyHasKey file "file_name" = false ∨ pyHasKey file "content" = false) :
    c.upload session file purpose =
      (.error (.valueError "File must contain 'file_name' and 'content' keys"), [], c) := by
  simp only [FilesClient.upload]
  rcases h with h | h <;> simp [h]

/-- C2 witness: a file mapping holding only 'file_name'. -/
theorem upload_missing_key_no_request_witness :
    pyHasKey [("file_name", "a.png")] "content" = false ∧
    FilesClient.upload ⟨"http://h", "k"⟩ errSession [("file_name", "a.png")] "ocr" =
      (.error (.valueError "File must contain 'file_name' and 'content' keys"), [],
        (⟨"http://h", "k"⟩ : FilesClient)) :=
  ⟨rfl, upload_missing_key_no_request ⟨"http://h", "k"⟩ errSession
      [("file_name", "a.png")] "ocr" (Or.inr rfl)⟩

/-- C4 (counterexample): the claim says the raised error carries the HTTP
status; in fact two non-200 responses with the same body but different
statuses (404 vs 500) produce identical outcomes, so the error cannot carry
the status — it carries only the prefixed body text. -/
theorem error_status_counterexample :
    (nvOCR.init "k" "http://h").health_check (fun _ => ⟨404, "boom", none⟩) =
      (nvOCR.init "k" "http://h").health_check (fun _ => ⟨500, "boom", none⟩) ∧
    ((nvOCR.init "k" "http://h").health_check (fun _ => ⟨404, "boom", none⟩)).1 =
      .error (.exception "Health check failed: boom") :=
  ⟨rfl, rfl⟩

/-- C4 (amended): for every non-200 response the corresponding error is
raised, and it carries the exact raw response body text, embedded verbatim
after an operation-identifying prefix; the HTTP status code is not part of
the error. -/
theorem nonsuccess_error_carries_body_text (c : nvOCR) (fc : FilesClient)
    (session : Session) (file : List (String × String))
    (purpose fid pm : String) (doc : JVal) :
    (pyHasKey file "file_name" = true → pyHasKey file "content" = true →
      (session (fc.uploadReq file purpose)).status_code ≠ 200 →
      (fc.upload session file purpose).1 =
        .error (.exception ("Upload failed: " ++ (session (fc.uploadReq file purpose)).text))) ∧
    ((session (c.processFileReq fid pm)).status_code ≠ 200 →
      (c.process_uploaded_file session fid pm).1 =
        .error (.exception ("Processing failed: " ++ (session (c.processFileReq fid pm)).text))) ∧
    ((session (c.processImageReq doc pm)).status_code ≠ 200 →
      (c.process_image session doc pm).1 =
        .error (.exception ("Processing failed: " ++ (session (c.processImageReq doc pm)).text))) ∧
    ((session c.healthReq).status_code ≠ 200 →
      (c.health_check session).1 =
        .error (.exception ("Health check failed: " ++ (session c.healthReq).text))) := by
  refine ⟨?_, ?_, ?_, ?_⟩
  · intro h1 h2 hs
    simp [FilesClient.upload, h1, h2, hs]
  · intro hs
    simp [nvOCR.process_uploaded_file, hs]
  · intro hs
    simp [nvOCR.process_image, hs]
  · intro hs
    simp [nvOCR.health_check, hs]

/-- C4 witness: the spec's end-to-end scenario — a 500 response with body
"internal error" to the health check. -/
theorem nonsuccess_error_carries_body_text_witness :
    (errSession (nvOCR.init "k" "http://h").healthReq).status_code ≠ 200 ∧
    ((nvOCR.init "k" "http://h").health_check errSession).1 =
      .error (.exception "Health check failed: internal error") :=
  ⟨by decide, (nonsuccess_error_carries_body_text (nvOCR.init "k" "http://h")
      ⟨"http://h", "k"⟩ errSession [] "ocr" "f" "p" JVal.null).2.2.2 (by decide)⟩

/-- C9: the client configuration is never mutated: every operation hands
back the client state (base URL, api_key, embedded FilesClient) exactly as
constructed, on the success and the error path alike. -/
theorem client_config_never_mutated (c : nvOCR) (fc : FilesClient)
    (session : Session) (file : List (String × String))
    (purpose fid pm : String) (doc : JVal) :
    (fc.upload session file purpose).2.2 = fc ∧
    (c.files.upload session file purpose).2.2 = c.files ∧
    (c.process_uploaded_file session fid pm).2.2 = c ∧
    (c.process_image session doc pm).2.2 = c ∧
    (c.health_check session).2.2 = c := by
  refine ⟨?_, ?_, ?_, ?_, ?_⟩
  · simp only [FilesClient.upload]
    split
    · rfl
    · split
      · rfl
      · split <;> rfl
  · simp only [FilesClient.upload]
    split
    · rfl
    · split
      · rfl
      · split <;> rfl
  · simp only [nvOCR.process_uploaded_file]
    split <;> rfl
  · simp only [nvOCR.process_image]
    split <;> rfl
  · simp only [nvOCR.health_check]
    split
    · rfl
    · split <;> rfl

/-- The upload outcome and its issued requests depend on the FilesClient
only through its base URL, never through its api_key. -/
theorem upload_key_irrelevant (u k1 k2 : String) (session : Session)
    (file : List (String × String)) (purpose : String) :
    (FilesClient.upload ⟨u, k1⟩ session file purpose).1 =
      (FilesClient.upload ⟨u, k2⟩ session file purpose).1 ∧
    (FilesClient.upload ⟨u, k1⟩ session file purpose).2.1 =
      (FilesClient.upload ⟨u, k2⟩ session file purpose).2.1 := by
  have hreq : FilesClient.uploadReq ⟨u, k1⟩ file purpose =
      FilesClient.uploadReq ⟨u, k2⟩ file purpose := rfl
  refine ⟨?_, ?_⟩ <;>
  · simp only [FilesClient.upload]
    rw [hreq]
    by_cases hv : (!(pyHasKey file "file_name") || !(pyHasKey file "content")) = true
    · simp [hv]
    · simp only [Bool.not_eq_true] at hv
      simp only [hv, Bool.false_eq_true, if_false]
      by_cases hs : (session (FilesClient.uploadReq ⟨u, k2⟩ file purpose)).status_code ≠ 200
      · simp [hs]
      · simp only [hs, if_false]
        cases hj : (session (FilesClient.uploadReq ⟨u, k2⟩ file purpose)).json <;> simp [hj]

/-- The `process_uploaded_file` outcome and requests are independent of the
api_key the client was constructed with. -/
theorem process_file_key_irrelevant (k1 k2 url : String) (session : Session)
    (fid pm : String) :
    ((nvOCR.init k1 url).process_uploaded_file session fid pm).1 =
      ((nvOCR.init k2 url).process_uploaded_file session fid pm).1 ∧
    ((nvOCR.init k1 url).process_uploaded_file session fid pm).2.1 =
      ((nvOCR.init k2 url).process_uploaded_file session fid pm).2.1 := by
  have hreq : (nvOCR.init k1 url).processFileReq fid pm =
      (nvOCR.init k2 url).processFileReq fid pm := rfl
  refine ⟨?_, ?_⟩ <;>
  · simp only [nvOCR.process_uploaded_file]
    rw [hreq]
    by_cases hs : (session ((nvOCR.init k2 url).processFileReq fid pm)).status_code ≠ 200 <;>
      simp [hs]

/-- The `process_image` outcome and requests are independent of the
api_key. -/
theorem process_image_key_irrelevant (k1 k2 url : String) (session : Session)
    (doc : JVal) (pm : String) :
    ((nvOCR.init k1 url).process_image session doc pm).1 =
      ((nvOCR.init k2 url).process_image session doc pm).1 ∧
    ((nvOCR.init k1 url).process_image session doc pm).2.1 =
      ((nvOCR.init k2 url).process_image session doc pm).2.1 := by
  have hreq : (nvOCR.init k1 url).processImageReq doc pm =
      (nvOCR.init k2 url).processImageReq doc pm := rfl
  refine ⟨?_, ?_⟩ <;>
  · simp only [nvOCR.process_image]
    rw [hreq]
    by_cases hs : (session ((nvOCR.init k2 url).processImageReq doc pm)).status_code ≠ 200 <;>
      simp [hs]

/-- The `health_check` outcome and requests are independent of the
api_key. -/
theorem health_check_key_irrelevant (k1 k2 url : String) (session : Session) :
    ((nvOCR.init k1 url).health_check session).1 =
      ((nvOCR.init k2 url).health_check session).1 ∧
    ((nvOCR.init k1 url).health_check session).2.1 =
      ((nvOCR.init k2 url).health_check session).2.1 := by
  have hreq : (nvOCR.init k1 url).healthReq = (nvOCR.init k2 url).healthReq := rfl
  refine ⟨?_, ?_⟩ <;>
  · simp only [nvOCR.health_check]
    rw [hreq]
    by_cases hs : (session ((nvOCR.init k2 url).healthReq)).status_code ≠ 200
    · simp [hs]
    · simp only [hs, if_false]
      cases hj : (session ((nvOCR.init k2 url).healthReq)).json <;> simp [hj]

/-- C8: the api_key is never attached to any outgoing request: two clients
built with different api_keys but the same url produce, on equal inputs and
against the same transport, identical outgoing requests and identical
results for all four operations. -/
theorem output_independent_of_api_key (k1 k2 url purpose fid pm : String)
    (file : List (String × String)) (doc : JVal) (session : Session) :
    (((nvOCR.init k1 url).files.upload session file purpose).1 =
       ((nvOCR.init k2 url).files.upload session file purpose).1 ∧
     ((nvOCR.init k1 url).files.upload session file purpose).2.1 =
       ((nvOCR.init k2 url).files.upload session file purpose).2.1) ∧
    (((nvOCR.init k1 url).process_uploaded_file session fid pm).1 =
       ((nvOCR.init k2 url).process_uploaded_file session fid pm).1 ∧
     ((nvOCR.init k1 url).process_uploaded_file session fid pm).2.1 =
       ((nvOCR.init k2 url).process_uploaded_file session fid pm).2.1) ∧
    (((nvOCR.init k1 url).process_image session doc pm).1 =
       ((nvOCR.init k2 url).process_image session doc pm).1 ∧
     ((nvOCR.init k1 url).process_image session doc pm).2.1 =
       ((nvOCR.init k2 url).process_image session doc pm).2.1) ∧
    (((nvOCR.init k1 url).health_check session).1 =
       ((nvOCR.init k2 url).health_check session).1 ∧
     ((nvOCR.init k1 url).health_check session).2.1 =
       ((nvOCR.init k2 url).health_check session).2.1) :=
  ⟨upload_key_irrelevant (pyRstrip url '/') k1 k2 session file purpose,
   process_file_key_irrelevant k1 k2 url session fid pm,
   process_image_key_irrelevant k1 k2 url session doc pm,
   health_check_key_irrelevant k1 k2 url session⟩

/-- A string-typed keyword extraction succeeds on a present string value. -/
theorem reqStr_ok {kw : List (String × JVal)} {name s : String}
    (h : kw.lookup name = some (.str s)) : reqStr kw name = .ok s := by
  unfold reqStr
  rw [h]

/-- An int-typed keyword extraction succeeds on a present int value. -/
theorem reqInt_ok {kw : List (String × JVal)} {name : String} {n : Int}
    (h : kw.lookup name = some (.int n)) : reqInt kw name = .ok n := by
  unfold reqInt
  rw [h]

/-- A string-typed keyword extraction either succeeds on a present string
value or raises a TypeError. -/
theorem reqStr_cases (kw : List (String × JVal)) (name : String) :
    (∃ s, reqStr kw name = .ok s ∧ kw.lookup name = some (.str s)) ∨
    (∃ m, reqStr kw name = .error (.typeError m)) := by
  unfold reqStr
  cases h : kw.lookup name with
  | none => exact .inr ⟨_, rfl⟩
  | some v =>
    cases v with
    | str s => exact .inl ⟨s, rfl, rfl⟩
    | int n => exact .inr ⟨_, rfl⟩
    | bool b => exact .inr ⟨_, rfl⟩
    | null => exact .inr ⟨_, rfl⟩
    | obj fs => exact .inr ⟨_, rfl⟩

/-- An int-typed keyword extraction either succeeds on a present int value
or raises a TypeError. -/
theorem reqInt_cases (kw : List (String × JVal)) (name : String) :
    (∃ n, reqInt kw name = .ok n ∧ kw.lookup name = some (.int n)) ∨
    (∃ m, reqInt kw name = .error (.typeError m)) := by
  unfold reqInt
  cases h : kw.lookup name with
  | none => exact .inr ⟨_, rfl⟩
  | some v =>
    cases v with
    | str s => exact .inr ⟨_, rfl⟩
    | int n => exact .inl ⟨n, rfl, rfl⟩
    | bool b => exact .inr ⟨_, rfl⟩
    | null => exact .inr ⟨_, rfl⟩
    | obj fs => exact .inr ⟨_, rfl⟩

/-- Keyword construction of `UploadedFile` succeeds when the object holds no
key outside the declared six and each declared key holds a value of the
annotated shape, and the record then copies those values field by field. -/
theorem uploadedFileOfKwargs_ok (kv : List (String × JVal))
    (i p fn : String) (b ca : Int) (st : String)
    (hmem : ∀ q ∈ kv, q.1 ∈ uploadedFileFields)
    (hli : kv.lookup "id" = some (.str i))
    (hlp : kv.lookup "purpose" = some (.str p))
    (hlf : kv.lookup "filename" = some (.str fn))
    (hlb : kv.lookup "bytes" = some (.int b))
    (hlca : kv.lookup "created_at" = some (.int ca))
    (hlst : kv.lookup "status" = some (.str st)) :
    uploadedFileOfKwargs kv = .ok ⟨i, p, fn, b, ca, st⟩ := by
  unfold uploadedFileOfKwargs
  have hany : kv.any (fun q => !(uploadedFileFields.contains q.1)) = false := by
    rw [List.any_eq_false]
    intro q hq
    show ¬(!(uploadedFileFields.contains q.1)) = true
    have hc : uploadedFileFields.contains q.1 = true := List.elem_iff.mpr (hmem q hq)
    rw [hc]
    simp
  rw [if_neg (fun h => Bool.false_ne_true (hany.symm.trans h))]
  rw [reqStr_ok hli, reqStr_ok hlp, reqStr_ok hlf, reqInt_ok hlb, reqInt_ok hlca,
    reqStr_ok hlst]

/-- Keyword construction of `UploadedFile` either raises a TypeError or
returns a record whose fields are exactly the values of the six declared
keys, with no key outside the declared set. -/
theorem uploadedFileOfKwargs_classify (kv : List (String × JVal)) :
    (∃ m, uploadedFileOfKwargs kv = .error (.typeError m)) ∨
    (∃ u : UploadedFile, uploadedFileOfKwargs kv = .ok u ∧
      (∀ q ∈ kv, q.1 ∈ uploadedFileFields) ∧
      kv.lookup "id" = some (.str u.id) ∧
      kv.lookup "purpose" = some (.str u.purpose) ∧
      kv.lookup "filename" = some (.str u.filename) ∧
      kv.lookup "bytes" = some (.int u.bytes) ∧
      kv.lookup "created_at" = some (.int u.created_at) ∧
      kv.lookup "status" = some (.str u.status)) := by
  unfold uploadedFileOfKwargs
  by_cases hany : kv.any (fun q => !(uploadedFileFields.contains q.1)) = true
  · rw [if_pos hany]
    exact .inl ⟨_, rfl⟩
  · rw [if_neg hany]
    have hmem : ∀ q ∈ kv, q.1 ∈ uploadedFileFields := by
      intro q hq
      by_contra hc
      apply hany
      refine List.any_eq_true.mpr ⟨q, hq, ?_⟩
      show (!(uploadedFileFields.contains q.1)) = true
      cases hcc : uploadedFileFields.contains q.1 with
      | false => rfl
      | true => exact absurd (List.elem_iff.mp hcc) hc
    rcases reqStr_cases kv "id" with ⟨i, hi, hli⟩ | ⟨m, hm⟩
    · rcases reqStr_cases kv "purpose" with ⟨p, hp, hlp⟩ | ⟨m, hm⟩
      · rcases reqStr_cases kv "filename" with ⟨fn, hf, hlf⟩ | ⟨m, hm⟩
        · rcases reqInt_cases kv "bytes" with ⟨b, hb, hlb⟩ | ⟨m, hm⟩
          · rcases reqInt_cases kv "created_at" with ⟨ca, hca, hlca⟩ | ⟨m, hm⟩
            · rcases reqStr_cases kv "status" with ⟨st, hst2, hlst⟩ | ⟨m, hm⟩
              · rw [hi, hp, hf, hb, hca, hst2]
                exact .inr ⟨⟨i, p, fn, b, ca, st⟩, rfl, hmem, hli, hlp, hlf, hlb, hlca, hlst⟩
              · rw [hi, hp, hf, hb, hca, hm]
                exact .inl ⟨m, rfl⟩
            · rw [hi, hp, hf, hb, hm]
              exact .inl ⟨m, rfl⟩
          · rw [hi, hp, hf, hm]
            exact .inl ⟨m, rfl⟩
        · rw [hi, hp, hm]
          exact .inl ⟨m, rfl⟩
      · rw [hi, hm]
        exact .inl ⟨m, rfl⟩
    · rw [hm]
      exact .inl ⟨m, rfl⟩

/-- With both required keys present and a 200 response whose body parses to
the JSON object `kv`, upload issues exactly the one multipart request and
reduces to dataclass keyword construction from `kv`. -/
theorem upload_reduces_to_kwargs (c : FilesClient) (session : Session)
    (file : List (String × String)) (purpose : String)
    (kv : List (String × JVal))
    (h1 : pyHasKey file "file_name" = true) (h2 : pyHasKey file "content" = true)
    (hst : (session (c.uploadReq file purpose)).status_code = 200)
    (hjson : (session (c.uploadReq file purpose)).json = some kv) :
    c.upload session file purpose =
      (uploadedFileOfKwargs kv, [c.uploadReq file purpose], c) := by
  simp only [FilesClient.upload]
  simp [h1, h2, hst, hjson]

/-- C1: with both keys present and a 200 response carrying the JSON object
`kv`, upload issues exactly one request; when `kv` holds exactly the six
declared fields, the returned UploadedFile's fields equal them one for one;
when `kv` has an extra field or lacks a declared one, record construction
fails with a TypeError (the spec's ProtocolMismatch) instead of silently
ignoring the drift. -/
theorem upload_maps_response_fields_exactly (c : FilesClient) (session : Session)
    (file : List (String × String)) (purpose : String) (kv : List (String × JVal))
    (h1 : pyHasKey file "file_name" = true) (h2 : pyHasKey file "content" = true)
    (hst : (session (c.uploadReq file purpose)).status_code = 200)
    (hjson : (session (c.uploadReq file purpose)).json = some kv) :
    (c.upload session file purpose).2.1 = [c.uploadReq file purpose] ∧
    (∀ (i p fn : String) (b ca : Int) (st : String),
      kv.lookup "id" = some (.str i) →
      kv.lookup "purpose" = some (.str p) →
      kv.lookup "filename" = some (.str fn) →
      kv.lookup "bytes" = some (.int b) →
      kv.lookup "created_at" = some (.int ca) →
      kv.lookup "status" = some (.str st) →
      (∀ q ∈ kv, q.1 ∈ uploadedFileFields) →
      (c.upload session file purpose).1 = .ok ⟨i, p, fn, b, ca, st⟩) ∧
    (((∃ q ∈ kv, q.1 ∉ uploadedFileFields) ∨
        (∃ nm ∈ uploadedFileFields, kv.lookup nm = none)) →
      ∃ m, (c.upload session file purpose).1 = .error (.typeError m)) := by
  rw [upload_reduces_to_kwargs c session file purpose kv h1 h2 hst hjson]
  refine ⟨rfl, ?_, ?_⟩
  · intro i p fn b ca st hli hlp hlf hlb hlca hlst hmem
    exact uploadedFileOfKwargs_ok kv i p fn b ca st hmem hli hlp hlf hlb hlca hlst
  · intro hdrift
    rcases uploadedFileOfKwargs_classify kv with ⟨m, hm⟩ | ⟨u, hu, hmem, hl⟩
    · exact ⟨m, hm⟩
    · exfalso
      rcases hdrift with ⟨q, hq, hnot⟩ | ⟨nm, hnm, hnone⟩
      · exact hnot (hmem q hq)
      · obtain ⟨hlid, hlp, hlf, hlb, hlca, hlst⟩ := hl
        simp only [uploadedFileFields, List.mem_cons, List.mem_singleton,
          List.not_mem_nil, or_false] at hnm
        rcases hnm with rfl | rfl | rfl | rfl | rfl | rfl
        · rw [hnone] at hlid; exact Option.noConfusion hlid
        · rw [hnone] at hlp; exact Option.noConfusion hlp
        · rw [hnone] at hlf; exact Option.noConfusion hlf
        · rw [hnone] at hlb; exact Option.noConfusion hlb
        · rw [hnone] at hlca; exact Option.noConfusion hlca
        · rw [hnone] at hlst; exact Option.noConfusion hlst

/-- C1 witness: the spec's end-to-end upload scenario, with the six-field
response JSON mapped one for one onto the returned record. -/
theorem upload_maps_response_fields_exactly_witness :
    pyHasKey sampleFile "file_name" = true ∧
    pyHasKey sampleFile "content" = true ∧
    (okSession (FilesClient.uploadReq ⟨"http://h", "k"⟩ sampleFile "ocr")).status_code = 200 ∧
    (okSession (FilesClient.uploadReq ⟨"http://h", "k"⟩ sampleFile "ocr")).json = some sampleKv ∧
    (FilesClient.upload ⟨"http://h", "k"⟩ okSession sampleFile "ocr").2.1 =
      [FilesClient.uploadReq ⟨"http://h", "k"⟩ sampleFile "ocr"] ∧
    (FilesClient.upload ⟨"http://h", "k"⟩ okSession sampleFile "ocr").1 =
      .ok ⟨"f1", "ocr", "a.png", 10, 1700000000, "uploaded"⟩ := by
  have h := upload_maps_response_fields_exactly ⟨"http://h", "k"⟩ okSession
    sampleFile "ocr" sampleKv rfl rfl rfl rfl
  exact ⟨rfl, rfl, rfl, rfl, h.1,
    h.2.1 "f1" "ocr" "a.png" 10 1700000000 "uploaded" rfl rfl rfl rfl rfl rfl (by decide)⟩
